import Mathlib

/-!
Shallow embedding of the `qsh` Python package (file `qsh/__init__.py`):
a streaming decoder for QScalp History (QSH) binary market-data files.

Modelling conventions:
* A byte stream (`self.fileobj` contents still to be consumed) is a `List Nat`,
  each element a byte value.
* Python `int` is `Int` (or `Nat` where the source value is provably
  non-negative, e.g. unsigned LEB128 accumulation).
* `datetime` values and the running millisecond counters are modelled as
  integer milliseconds since 0001-01-01 (the Python source stores them as
  floats; every millisecond value reachable in the scenarios and claims
  below is integral, where float and integer arithmetic agree, and no claim
  constrains a timestamp value otherwise).  `to_milliseconds`/`to_datetime`
  and the timezone `replace`/`astimezone` calls are value-preserving in this
  model.
* Python exceptions become an error type `PyError`; a raised exception is an
  `Except.error`.
* Python `dict` values (insertion ordered, int keys and values) are
  association lists `QDict` with insertion-order semantics.
-/

deriving instance DecidableEq for Except

namespace Qsh

/-- Python exceptions that the decoder can raise. -/
inductive PyError
  | eof              -- EOFError
  | structError      -- struct.error (unpack on a buffer of the wrong size)
  | typeError        -- TypeError("Unsupported file format")
  | keyError         -- KeyError (del on a missing dict key)
  | attributeError   -- AttributeError (reading a never-assigned attribute)
  | unicodeError     -- UnicodeDecodeError (non-ASCII byte in .decode('ascii'))
  | badGzipFile      -- gzip/IOError: underlying file is not a gzip archive
  deriving DecidableEq, Repr

/-- Source `QshFile.read(length)`: returns `fileobj.read(length)` (at most
`length` bytes, fewer at end of stream) and raises `EOFError` when the result
is the empty byte string (the source compares `result == ''`; we read that
comparison as an emptiness test, its evident intent and its Python 2
behaviour).  Returns the bytes read and the remaining stream. -/
def pyread (length : Nat) (s : List Nat) : Except PyError (List Nat × List Nat) :=
  let result := s.take length
  if result = [] then .error .eof
  else .ok (result, s.drop length)

/-- Source `read_byte`: `struct.unpack("B", self.read(1))[0]`. -/
def read_byte (s : List Nat) : Except PyError (Nat × List Nat) := do
  let (r, s') ← pyread 1 s
  match r with
  | [b] => .ok (b, s')
  | _ => .error .structError

/-- Source `read_uint16`: `struct.unpack("H", self.read(2))[0]`,
little-endian; `struct.unpack` raises `struct.error` unless it gets exactly
2 bytes. -/
def read_uint16 (s : List Nat) : Except PyError (Nat × List Nat) := do
  let (r, s') ← pyread 2 s
  match r with
  | [b0, b1] => .ok (b0 + b1 * 256, s')
  | _ => .error .structError

/-- Source `read_int64`: `struct.unpack("q", self.read(8))[0]`, little-endian
two's-complement; `struct.error` unless exactly 8 bytes. -/
def read_int64 (s : List Nat) : Except PyError (Int × List Nat) := do
  let (r, s') ← pyread 8 s
  if r.length = 8 then
    let u : Nat := r.foldr (fun b acc => acc * 256 + b) 0
    .ok (if u < 2 ^ 63 then (u : Int) else (u : Int) - 2 ^ 64, s')
  else .error .structError

/-- Loop of source `read_uleb128`: accumulate 7 payload bits per byte, stop
when the continuation bit 0x80 is clear.  The accumulator stays non-negative
throughout, so it is a `Nat`. -/
def read_uleb128_go : List Nat → Nat → Nat → Except PyError (Nat × List Nat)
  | [], _, _ => .error .eof
  | b :: rest, shift, result =>
    let result := result ||| ((b &&& 0x7F) <<< shift)
    if b &&& 0x80 = 0 then .ok (result, rest)
    else read_uleb128_go rest (shift + 7) result

/-- Source `read_uleb128`. -/
def read_uleb128 (s : List Nat) : Except PyError (Nat × List Nat) :=
  read_uleb128_go s 0 0

/-- Bits of `n` not set in `m` (`Nat.ldiff`), in a kernel-computable form:
the common bits `n &&& m` form a sub-mask of `n`, so removing them is plain
subtraction. -/
def natLdiff (n m : Nat) : Nat := n - (n &&& m)

/-- Python big-integer bitwise OR (two's complement over the
sign-magnitude representation), in a kernel-computable form; this is the
`|` operator the source applies in `read_leb128`. -/
def intLor : Int → Int → Int
  | .ofNat m, .ofNat n => .ofNat (m ||| n)
  | .ofNat m, .negSucc n => .negSucc (natLdiff n m)
  | .negSucc m, .ofNat n => .negSucc (natLdiff m n)
  | .negSucc m, .negSucc n => .negSucc (m &&& n)

/-- Loop of source `read_leb128`: like `read_uleb128` but `shift` is advanced
before the termination test, and after the final byte, if its 0x40 bit is
set, the result is OR-ed with `-(1 <<< shift)` (sign extension). -/
def read_leb128_go : List Nat → Nat → Nat → Except PyError (Int × List Nat)
  | [], _, _ => .error .eof
  | b :: rest, shift, result =>
    let result := result ||| ((b &&& 0x7F) <<< shift)
    let shift := shift + 7
    if b &&& 0x80 = 0 then
      .ok (if b &&& 0x40 ≠ 0 then intLor result (-((1 <<< shift : Nat) : Int))
           else (result : Int), rest)
    else read_leb128_go rest shift result

/-- Source `read_leb128` (signed LEB128). -/
def read_leb128 (s : List Nat) : Except PyError (Int × List Nat) :=
  read_leb128_go s 0 0

/-- Source `decode('ascii')` on a byte string: succeeds iff every byte is
below 128. -/
def decodeAscii (bs : List Nat) : Except PyError (List Nat) :=
  if bs.all (· < 128) then .ok bs else .error .unicodeError

/-- Source `read_string`: uleb128 length, then that many bytes decoded as
ASCII.  Strings are kept as byte lists. -/
def read_string (s : List Nat) : Except PyError (List Nat × List Nat) := do
  let (length, s') ← read_uleb128 s
  let (bs, s'') ← pyread length s'
  let str ← decodeAscii bs
  .ok (str, s'')

/-- Source `read_datetime`: an `int64` count of 100-nanosecond ticks,
converted to a datetime at microsecond resolution (`nanoseconds // 10`,
Python floor division). -/
def read_datetime (s : List Nat) : Except PyError (Int × List Nat) := do
  let (ns, s') ← read_int64 s
  .ok (Int.fdiv ns 10, s')

/-- Source `to_milliseconds` applied to a datetime holding `us` microseconds
since 0001-01-01: `(dt - epoch).total_seconds() * 1000 = us / 1000` (a float
in the source, an integer here: exact whenever `us` is millisecond-aligned,
as in every scenario below). -/
def to_milliseconds (us : Int) : Int := Int.fdiv us 1000

/-- Source `read_relative(last_value)`: signed leb128 delta added to the last
value. -/
def read_relative (last_value : Int) (s : List Nat) :
    Except PyError (Int × List Nat) :=
  match read_leb128 s with
  | .error e => .error e
  | .ok (offset, s') => .ok (last_value + offset, s')

/-- Source `read_growing(last_value)`: uleb128 delta; the sentinel 268435455
(0x0FFFFFFF) escapes to a signed leb128 delta instead. -/
def read_growing (last_value : Int) (s : List Nat) :
    Except PyError (Int × List Nat) :=
  match read_uleb128 s with
  | .error e => .error e
  | .ok (offset, s') =>
    if offset = 268435455 then
      match read_leb128 s' with
      | .error e => .error e
      | .ok (offset2, s'') => .ok (last_value + offset2, s'')
    else .ok (last_value + (offset : Int), s')

/-- Source `read_growing_datetime(last_value)`: `read_growing` applied to a
running millisecond counter (the source reuses `read_growing` on a float
millisecond value; here the counter is an integer), returning the
datetime reconstructed from the new counter, which in this model is the
counter itself. -/
def read_growing_datetime (last_value : Int) (s : List Nat) :
    Except PyError (Int × List Nat) :=
  match read_uleb128 s with
  | .error e => .error e
  | .ok (offset, s') =>
    if offset = 268435455 then
      match read_leb128 s' with
      | .error e => .error e
      | .ok (offset2, s'') => .ok (last_value + offset2, s'')
    else .ok (last_value + (offset : Int), s')

/-- Source `is_available(list_mask, item_mask)`: `(list_mask & item_mask) != 0`. -/
def is_available (list_mask item_mask : Nat) : Bool :=
  list_mask &&& item_mask ≠ 0

/-- A Python `dict` with `int` keys and values, modelled as an
insertion-ordered association list without duplicate keys. -/
abbrev QDict := List (Int × Int)

/-- Python `d.get(k, default)` / `d[k]` lookup with a default. -/
def dictGet (d : QDict) (k : Int) (dflt : Int) : Int :=
  match d.find? (fun kv => kv.1 == k) with
  | some kv => kv.2
  | none => dflt

/-- Python `d[k]` lookup as an `Option` (used to state presence/absence). -/
def dictLookup (d : QDict) (k : Int) : Option Int :=
  (d.find? (fun kv => kv.1 == k)).map (·.2)

/-- Python `k in d`. -/
def dictContains (d : QDict) (k : Int) : Bool :=
  d.any (fun kv => kv.1 == k)

/-- Python `d[k] = v`: replaces in place if the key exists (keeping its
insertion position), otherwise appends. -/
def dictSet (d : QDict) (k v : Int) : QDict :=
  if dictContains d k then d.map (fun kv => if kv.1 == k then (k, v) else kv)
  else d ++ [(k, v)]

/-- Python `d.pop(k, None)`: removes the key if present, no error if absent. -/
def dictPop (d : QDict) (k : Int) : QDict :=
  d.filter (fun kv => kv.1 != k)

/-- Python `del d[k]`: removes the key, raising `KeyError` if absent. -/
def dictDel (d : QDict) (k : Int) : Except PyError QDict :=
  if dictContains d k then .ok (dictPop d k) else .error .keyError

/-! ## Record entities and mask constants (source lines 25-136) -/

def OrdLogDataFlag.DATETIME : Nat := 1
def OrdLogDataFlag.ORDER_ID : Nat := 2
def OrdLogDataFlag.ORDER_PRICE : Nat := 4
def OrdLogDataFlag.AMOUNT : Nat := 8
def OrdLogDataFlag.ORDER_AMOUNT_REST : Nat := 16
def OrdLogDataFlag.DEAL_ID : Nat := 32
def OrdLogDataFlag.DEAL_PRICE : Nat := 64
def OrdLogDataFlag.OI_AFTER_DEAL : Nat := 128

def ActionFlag.NON_ZERO_REPL_ACT : Nat := 1
def ActionFlag.FLOW_START : Nat := 2
def ActionFlag.ADD : Nat := 4
def ActionFlag.FILL : Nat := 8
def ActionFlag.BUY : Nat := 16
def ActionFlag.SELL : Nat := 32
def ActionFlag.NON_SYSTEM : Nat := 512
def ActionFlag.END_OF_TRANSACTION : Nat := 1024
def ActionFlag.CANCELED : Nat := 8192

def DealDataFlag.TYPE : Nat := 3
def DealDataFlag.DATETIME : Nat := 4
def DealDataFlag.ID : Nat := 8
def DealDataFlag.ORDER_ID : Nat := 16
def DealDataFlag.PRICE : Nat := 32
def DealDataFlag.VOLUME : Nat := 64
def DealDataFlag.OI : Nat := 128

def DealType.UNKNOWN : Nat := 0
def DealType.BUY : Nat := 1
def DealType.SELL : Nat := 2

/-- Source `OrdLogEntry` named tuple. -/
structure OrdLogEntry where
  actions_mask : Nat
  exchange_timestamp : Int
  exchange_order_id : Int
  order_price : Int
  amount : Int
  amount_rest : Int
  deal_id : Int
  deal_price : Int
  oi_after_deal : Int
  deriving DecidableEq, Repr

/-- Source `DealEntry` named tuple. -/
structure DealEntry where
  type : Nat
  id : Int
  timestamp : Int
  price : Int
  volume : Int
  oi : Int
  order_id : Int
  deriving DecidableEq, Repr

/-- Source `AuxInfoEntry` named tuple (deposit and rate are only ever
constructed as 0 by `read_ord_log_data`, so they are `Int` here; `message`
is a byte string). -/
structure AuxInfoEntry where
  timestamp : Int
  price : Int
  ask_total : Int
  bid_total : Int
  oi : Int
  hi_limit : Int
  low_limit : Int
  deposit : Int
  rate : Int
  message : List Nat
  deriving DecidableEq, Repr

/-! ## Decoder state -/

/-- The scalar per-stream last-value state of a `QshFile` instance plus the
remaining byte stream of `self.fileobj`.  Field names follow the source
attributes (the reconstruction-owned `last_pushed_deal_id` and the dict
attributes live in `QshState`: the field-parsing code never touches them).
`deals_last_volume` is an `Option` because the source never
initializes that attribute (there is no class-level default for it, unlike
the other deals fields): `none` models the attribute being absent, and
reading it then raises `AttributeError`. -/
structure ScalarState where
  stream : List Nat
  streams_count : Nat
  last_frame_milliseconds : Int
  last_exchange_milliseconds : Int
  last_order_id : Int
  last_order_price : Int
  last_amount : Int
  last_order_amount_rest : Int
  last_deal_id : Int
  last_deal_price : Int
  last_oi_after_deal : Int
  quotes_last_price : Int
  deals_last_milliseconds : Int
  deals_last_id : Int
  deals_last_order_id : Int
  deals_last_price : Int
  deals_last_volume : Option Int
  deals_last_oi : Int
  deriving DecidableEq, Repr

/-- Full decoder state: the scalar state together with the
reconstruction-owned deal gate `last_pushed_deal_id` and the three mutable
dict attributes (`self.quotes`, `self.external_quotes`, `self.quotes_dict`),
here by value; reference identity is modelled separately in `HState`. -/
structure QshState where
  sc : ScalarState
  last_pushed_deal_id : Int
  quotes : QDict
  external_quotes : QDict
  quotes_dict : QDict
  deriving DecidableEq, Repr

/-- State immediately after `QshFile.__init__`: all last values zero, empty
dicts, `deals_last_volume` unassigned, `last_frame_milliseconds` set to the
file's creation time in milliseconds. -/
def initScalar (stream : List Nat) (streams_count : Nat) (created_ms : Int) :
    ScalarState where
  stream := stream
  streams_count := streams_count
  last_frame_milliseconds := created_ms
  last_exchange_milliseconds := 0
  last_order_id := 0
  last_order_price := 0
  last_amount := 0
  last_order_amount_rest := 0
  last_deal_id := 0
  last_deal_price := 0
  last_oi_after_deal := 0
  quotes_last_price := 0
  deals_last_milliseconds := 0
  deals_last_id := 0
  deals_last_order_id := 0
  deals_last_price := 0
  deals_last_volume := none
  deals_last_oi := 0

/-- Freshly opened decoder state. -/
def initQshState (stream : List Nat) (streams_count : Nat) (created_ms : Int) :
    QshState where
  sc := initScalar stream streams_count created_ms
  last_pushed_deal_id := 0
  quotes := []
  external_quotes := []
  quotes_dict := []

/-! ## Frame header (source lines 295-304) -/

/-- Source `read_frame_header`: growing-delta timestamp based on
`last_frame_milliseconds`; a stream-index byte follows only when
`streams_count > 1`. -/
def read_frame_header (s : QshState) :
    Except PyError ((Int × Nat) × QshState) := do
  let (timestamp, st) ← read_growing_datetime s.sc.last_frame_milliseconds s.sc.stream
  let sc := { s.sc with last_frame_milliseconds := timestamp, stream := st }
  if sc.streams_count > 1 then do
    let (stream_index, st') ← read_byte sc.stream
    .ok ((timestamp, stream_index), { s with sc := { sc with stream := st' } })
  else
    .ok ((timestamp, 0), { s with sc := sc })

/-! ## Ord-log record decode (source lines 306-412) -/

/-- The local (per-record) values computed by the field-parsing part of
`read_ord_log_data` (source lines 320-371). -/
structure OrdLogParsed where
  availability_mask : Nat
  actions_mask : Nat
  exchange_timestamp : Int
  exchange_order_id : Int
  amount_rest : Int
  deal_id : Int
  deal_price : Int
  oi_after_deal : Int
  deriving DecidableEq, Repr

/-- Source lines 332-338, the three-way ORDER_ID handling of
`read_ord_log_data`: absent bit reads nothing and exports `last_order_id`;
present bit with ADD advances `last_order_id` by a growing delta and exports
it; present bit without ADD exports `last_order_id` plus a relative (signed
leb128) delta without writing `last_order_id` back. -/
def ordLogOrderId (availability_mask : Nat) (is_add : Bool) (sc : ScalarState) :
    Except PyError (Int × ScalarState) :=
  if !(is_available availability_mask OrdLogDataFlag.ORDER_ID) then
    .ok (sc.last_order_id, sc)
  else if is_add then
    match read_growing sc.last_order_id sc.stream with
    | .error e => .error e
    | .ok (v, st) => .ok (v, { sc with last_order_id := v, stream := st })
  else
    match read_relative sc.last_order_id sc.stream with
    | .error e => .error e
    | .ok (v, st) => .ok (v, { sc with stream := st })

/-- Field-parsing part of `read_ord_log_data` (source lines 320-371): masks,
conditional field reads updating the last values, and the FILL-guarded deal
fields. -/
def ordLogParse (sc0 : ScalarState) : Except PyError (OrdLogParsed × ScalarState) := do
  let (availability_mask, st) ← read_byte sc0.stream
  let (actions_mask, st) ← read_uint16 st
  let sc := { sc0 with stream := st }
  let is_add := is_available actions_mask ActionFlag.ADD
  let sc ← if is_available availability_mask OrdLogDataFlag.DATETIME then do
      let (dt, st) ← read_growing_datetime sc.last_exchange_milliseconds sc.stream
      pure { sc with last_exchange_milliseconds := dt, stream := st }
    else pure sc
  let exchange_timestamp := sc.last_exchange_milliseconds
  let (exchange_order_id, sc) ← ordLogOrderId availability_mask is_add sc
  let sc ← if is_available availability_mask OrdLogDataFlag.ORDER_PRICE then do
      let (v, st) ← read_relative sc.last_order_price sc.stream
      pure { sc with last_order_price := v, stream := st }
    else pure sc
  let sc ← if is_available availability_mask OrdLogDataFlag.AMOUNT then do
      let (v, st) ← read_leb128 sc.stream
      pure { sc with last_amount := v, stream := st }
    else pure sc
  if is_available actions_mask ActionFlag.FILL then do
    let sc ← if is_available availability_mask OrdLogDataFlag.ORDER_AMOUNT_REST then do
        let (v, st) ← read_leb128 sc.stream
        pure { sc with last_order_amount_rest := v, stream := st }
      else pure sc
    let amount_rest := sc.last_order_amount_rest
    let sc ← if is_available availability_mask OrdLogDataFlag.DEAL_ID then do
        let (v, st) ← read_growing sc.last_deal_id sc.stream
        pure { sc with last_deal_id := v, stream := st }
      else pure sc
    let deal_id := sc.last_deal_id
    let sc ← if is_available availability_mask OrdLogDataFlag.DEAL_PRICE then do
        let (v, st) ← read_relative sc.last_deal_price sc.stream
        pure { sc with last_deal_price := v, stream := st }
      else pure sc
    let deal_price := sc.last_deal_price
    let sc ← if is_available availability_mask OrdLogDataFlag.OI_AFTER_DEAL then do
        let (v, st) ← read_relative sc.last_oi_after_deal sc.stream
        pure { sc with last_oi_after_deal := v, stream := st }
      else pure sc
    let oi_after_deal := sc.last_oi_after_deal
    .ok ({ availability_mask, actions_mask, exchange_timestamp, exchange_order_id,
           amount_rest, deal_id, deal_price, oi_after_deal }, sc)
  else
    .ok ({ availability_mask, actions_mask, exchange_timestamp, exchange_order_id,
           amount_rest := if is_add then sc.last_amount else 0,
           deal_id := 0, deal_price := 0, oi_after_deal := 0 }, sc)

/-- Deal-emission gate of `read_ord_log_data` (source lines 407-410): emit a
`DealEntry` and advance `last_pushed_deal_id` exactly when
`last_pushed_deal_id < deal_id`.  `last_amount` is the decoder's
`self.last_amount` at emission time. -/
def dealGate (last_pushed_deal_id : Int) (last_amount : Int) (p : OrdLogParsed)
    (is_sell : Bool) : Int × Option DealEntry :=
  if last_pushed_deal_id < p.deal_id then
    (p.deal_id,
     some { type := if is_sell then DealType.SELL else DealType.BUY,
            id := p.deal_id, timestamp := p.exchange_timestamp,
            price := p.deal_price, volume := last_amount,
            oi := p.oi_after_deal, order_id := 0 })
  else (last_pushed_deal_id, none)

/-- Result tuple of `read_ord_log_data`:
`(ord_log_entry, aux_info_entry, self.external_quotes, deal_entry)`. -/
structure OrdLogResult where
  entry : OrdLogEntry
  aux_info : Option AuxInfoEntry
  external_quotes : QDict
  deal : Option DealEntry
  deriving DecidableEq, Repr

/-- The ask/bid aggregation loop of `read_ord_log_data` (source lines
396-403): positive volumes add to `ask_total`, others subtract from
`bid_total`. -/
def askBidTotals (d : QDict) : Int × Int :=
  d.foldl
    (fun ab kv => if kv.2 > 0 then (ab.1 + kv.2, ab.2) else (ab.1, ab.2 - kv.2))
    (0, 0)

/-- Order-book reconstruction part of `read_ord_log_data` (source lines
372-412), a pure function of the parsed record, the post-parse scalar state
(read only), the deal gate and the two dict attributes.  Returns the result
tuple, the new `last_pushed_deal_id`, the new `self.quotes` and the new
`self.external_quotes`. -/
def ordLogRecon (p : OrdLogParsed) (sc : ScalarState) (last_pushed_deal_id : Int)
    (quotes external_quotes : QDict) :
    OrdLogResult × Int × QDict × QDict :=
  let is_add := is_available p.actions_mask ActionFlag.ADD
  let is_buy := is_available p.actions_mask ActionFlag.BUY
  let is_sell := is_available p.actions_mask ActionFlag.SELL
  let entry : OrdLogEntry :=
    { actions_mask := p.actions_mask, exchange_timestamp := p.exchange_timestamp,
      exchange_order_id := p.exchange_order_id,
      order_price := sc.last_order_price, amount := sc.last_amount,
      amount_rest := p.amount_rest, deal_id := p.deal_id,
      deal_price := p.deal_price, oi_after_deal := p.oi_after_deal }
  let quotes0 := if is_available p.actions_mask ActionFlag.FLOW_START then [] else quotes
  if (is_buy ^^ is_sell) && !(is_available p.actions_mask ActionFlag.NON_SYSTEM)
      && !(is_available p.actions_mask ActionFlag.NON_ZERO_REPL_ACT) then
    let quantity0 := dictGet quotes0 sc.last_order_price 0
    let quantity := if (if is_add then is_sell else is_buy)
      then quantity0 + sc.last_amount else quantity0 - sc.last_amount
    let quotes1 := if quantity = 0 then dictPop quotes0 sc.last_order_price
      else dictSet quotes0 sc.last_order_price quantity
    let eot := is_available p.actions_mask ActionFlag.END_OF_TRANSACTION
    let external1 := if eot then quotes1 else external_quotes
    let aux : Option AuxInfoEntry := if eot then
        some { timestamp := p.exchange_timestamp, price := sc.last_deal_price,
               ask_total := (askBidTotals quotes1).1,
               bid_total := (askBidTotals quotes1).2,
               oi := sc.last_oi_after_deal, hi_limit := 0, low_limit := 0,
               deposit := 0, rate := 0, message := [] }
      else none
    let gate := dealGate last_pushed_deal_id sc.last_amount p is_sell
    ({ entry := entry, aux_info := aux, external_quotes := external1,
       deal := gate.2 }, gate.1, quotes1, external1)
  else
    ({ entry := entry, aux_info := none, external_quotes := external_quotes,
       deal := none }, last_pushed_deal_id, quotes0, external_quotes)

/-- Source `read_ord_log_data` (lines 318-412): field parsing followed by
order-book reconstruction and derived-event emission. -/
def read_ord_log_data (s : QshState) :
    Except PyError (OrdLogResult × QshState) :=
  match ordLogParse s.sc with
  | .error e => .error e
  | .ok (p, sc1) =>
    let t := ordLogRecon p sc1 s.last_pushed_deal_id s.quotes s.external_quotes
    let s' := { s with sc := sc1, last_pushed_deal_id := t.2.1,
                       quotes := t.2.2.1, external_quotes := t.2.2.2 }
    .ok (t.1, s')

/-- A sequence of `n` consecutive `read_ord_log_data` calls on one decoder,
collecting the results. -/
def read_ord_log_seq : Nat → QshState → Except PyError (List OrdLogResult × QshState)
  | 0, s => .ok ([], s)
  | n + 1, s =>
    match read_ord_log_data s with
    | .error e => .error e
    | .ok (r, s') =>
      match read_ord_log_seq n s' with
      | .error e => .error e
      | .ok (rs, s'') => .ok (r :: rs, s'')

/-- Number of `DealEntry` emissions in a list of ord-log results. -/
def dealsEmitted (rs : List OrdLogResult) : Nat :=
  (rs.filter (fun r => r.deal.isSome)).length

/-! ## Quotes stream (source lines 422-435) -/

/-- Loop body of `read_quotes_data`: `count` repetitions of a relative price
and a leb128 volume; volume 0 performs `del` (raising `KeyError` when the
price is absent).  Returns the first error if any, together with the state
reached so far (`quotes_last_price`, the running dict, the remaining
stream): a Python exception does not roll back earlier iterations. -/
def quotesLoop : Nat → Int → QDict → List Nat →
    Option PyError × Int × QDict × List Nat
  | 0, lastPrice, d, st => (none, lastPrice, d, st)
  | n + 1, lastPrice, d, st =>
    match read_relative lastPrice st with
    | .error e => (some e, lastPrice, d, st)
    | .ok (p, st) =>
      match read_leb128 st with
      | .error e => (some e, p, d, st)
      | .ok (volume, st) =>
        if volume = 0 then
          match dictDel d p with
          | .error e => (some e, p, d, st)
          | .ok d' => quotesLoop n p d' st
        else quotesLoop n p (dictSet d p volume) st

/-- Source `read_quotes_data`: leb128 count, then the quotes loop; returns a
snapshot copy `dict(self.quotes_dict)` (a copy is the same value here). -/
def read_quotes_data (s : QshState) : Except PyError (QDict × QshState) := do
  let (count, st) ← read_leb128 s.sc.stream
  match quotesLoop count.toNat s.sc.quotes_last_price s.quotes_dict st with
  | (some e, _, _, _) => .error e
  | (none, lastPrice, d, st') =>
    let sc' := { s.sc with stream := st', quotes_last_price := lastPrice }
    .ok (d, { s with sc := sc', quotes_dict := d })

/-! ## Deals stream (source lines 437-470) -/

/-- Source `read_deals_data`: availability-mask gated field reads; the low
two mask bits are the deal type.  The returned entry reads
`self.deals_last_volume`, which raises `AttributeError` when no record so
far ever carried the VOLUME bit (the attribute has no initializer in the
source). -/
def read_deals_data (s : QshState) : Except PyError (DealEntry × QshState) := do
  let (availability_mask, st) ← read_byte s.sc.stream
  let sc := { s.sc with stream := st }
  let deal_type := availability_mask &&& DealDataFlag.TYPE
  let sc ← if is_available availability_mask DealDataFlag.DATETIME then do
      let (v, st) ← read_growing_datetime sc.deals_last_milliseconds sc.stream
      pure { sc with deals_last_milliseconds := v, stream := st }
    else pure sc
  let sc ← if is_available availability_mask DealDataFlag.ID then do
      let (v, st) ← read_growing sc.deals_last_id sc.stream
      pure { sc with deals_last_id := v, stream := st }
    else pure sc
  let sc ← if is_available availability_mask DealDataFlag.ORDER_ID then do
      let (v, st) ← read_relative sc.deals_last_order_id sc.stream
      pure { sc with deals_last_order_id := v, stream := st }
    else pure sc
  let sc ← if is_available availability_mask DealDataFlag.PRICE then do
      let (v, st) ← read_relative sc.deals_last_price sc.stream
      pure { sc with deals_last_price := v, stream := st }
    else pure sc
  let sc ← if is_available availability_mask DealDataFlag.VOLUME then do
      let (v, st) ← read_leb128 sc.stream
      pure { sc with deals_last_volume := some v, stream := st }
    else pure sc
  let sc ← if is_available availability_mask DealDataFlag.OI then do
      let (v, st) ← read_relative sc.deals_last_oi sc.stream
      pure { sc with deals_last_oi := v, stream := st }
    else pure sc
  let volume ← match sc.deals_last_volume with
    | some v => Except.ok v
    | none => Except.error PyError.attributeError
  .ok ({ type := deal_type, id := sc.deals_last_id,
         timestamp := sc.deals_last_milliseconds, price := sc.deals_last_price,
         volume := volume, oi := sc.deals_last_oi,
         order_id := sc.deals_last_order_id }, { s with sc := sc })

/-! ## Opening a file (source lines 146-178) -/

/-- The 19 ASCII bytes of the signature literal "QScalp History Data". -/
def signature : List Nat :=
  [81, 83, 99, 97, 108, 112, 32, 72, 105, 115, 116, 111, 114, 121, 32, 68, 97, 116, 97]

/-- A file on disk, as seen through the two ways the source opens it.
`gzipped payload rawBytes` is a well-formed gzip archive whose decompressed
content is `payload` and whose literal on-disk bytes are `rawBytes`;
`raw content` is a file that is not a gzip archive. -/
inductive DiskFile
  | gzipped (payload : List Nat) (rawBytes : List Nat)
  | raw (content : List Nat)

/-- Modelled from Python's `gzip` module (an external dependency of the
source, not code of this repository): reading from `gzip.open(filename)`
yields the decompressed payload when the file is a gzip archive and raises
(`IOError` in Python 2, `gzip.BadGzipFile` in Python 3) on the first read
otherwise; the source wraps no try/except around it. -/
def gzipStream : DiskFile → Except PyError (List Nat)
  | .gzipped payload _ => .ok payload
  | .raw _ => .error .badGzipFile

/-- Modelled from Python's `io.open`: reading yields the literal file bytes. -/
def rawStream : DiskFile → List Nat
  | .gzipped _ rawBytes => rawBytes
  | .raw content => content

/-- Source header fields collected by `QshFile.__init__`. -/
structure QshFileHeader where
  version : Nat
  application : List Nat
  comment : List Nat
  created_at : Int
  streams_count : Nat
  deriving DecidableEq, Repr

/-- Signature check of `QshFile.__init__`:
`self.read(len(signature)).decode('ascii')` compared with the literal. -/
def readSignature (st : List Nat) : Except PyError (List Nat × List Nat) := do
  let (bs, st') ← pyread signature.length st
  let sig ← decodeAscii bs
  .ok (sig, st')

/-- Source `QshFile.__init__` (`open`): gzip attempt first; on signature
mismatch re-open raw and re-check; `TypeError` when both mismatch.  Then the
header fields are read in order and the per-stream state is initialized. -/
def qshOpen (f : DiskFile) : Except PyError (QshFileHeader × QshState) := do
  let st0 ← gzipStream f
  let (sig, st1) ← readSignature st0
  let st ← if sig = signature then pure st1
    else do
      let (sig2, st2) ← readSignature (rawStream f)
      if sig2 = signature then pure st2
      else Except.error PyError.typeError
  let (version, st) ← read_byte st
  let (application, st) ← read_string st
  let (comment, st) ← read_string st
  let (created_us, st) ← read_datetime st
  let last_created_at_milliseconds := to_milliseconds created_us
  let (streams_count, st) ← read_byte st
  .ok ({ version, application, comment,
         created_at := last_created_at_milliseconds, streams_count },
       initQshState st streams_count last_created_at_milliseconds)

/-! ## Reference-level model of the mutable dict attributes

Python dicts are reference types: `read_ord_log_data` returns the object
`self.external_quotes` (rebound to a fresh copy `dict(self.quotes)` at
END_OF_TRANSACTION), while in-place mutation happens on the distinct object
`self.quotes`; `read_quotes_data` mutates `self.quotes_dict` in place and
returns a fresh copy.  To state the snapshot-immutability claim the heap
variant below makes these object identities explicit: a store maps
references (allocation-ordered naturals) to dict values, the three dict
attributes hold references, and `dict(...)` copies and `= {}` rebindings
allocate fresh references.  The parsing logic is shared with the value-level
model. -/

/-- Store update at one reference. -/
def storeSet (f : Nat → QDict) (r : Nat) (d : QDict) : Nat → QDict :=
  fun x => if x = r then d else f x

/-- Decoder state with the dict attributes as references into a store. -/
structure HState where
  sc : ScalarState
  last_pushed_deal_id : Int
  quotesRef : Nat
  externalQuotesRef : Nat
  quotesDictRef : Nat
  store : Nat → QDict
  nextRef : Nat

/-- Freshly opened decoder in the reference model: three distinct empty
dicts. -/
def initHState (stream : List Nat) : HState where
  sc := initScalar stream 1 0
  last_pushed_deal_id := 0
  quotesRef := 0
  externalQuotesRef := 1
  quotesDictRef := 2
  store := fun _ => []
  nextRef := 3

/-- Source `read_ord_log_data` in the reference model.  Identical to
`read_ord_log_data` / `ordLogRecon` except that dict operations act on the
store: `self.quotes = {}` (FLOW_START) rebinds `quotesRef` to a fresh
reference; the book update writes through `quotesRef`;
`self.external_quotes = dict(self.quotes)` (END_OF_TRANSACTION) allocates a
fresh reference holding a copy.  The third component of the result is the
reference of the returned `self.external_quotes` object.  The state is
returned even on error (a Python exception does not roll anything back; a
parse error has touched no dict). -/
def read_ord_log_data_heap (s : HState) :
    Except PyError (OrdLogEntry × Option AuxInfoEntry × Nat × Option DealEntry) × HState :=
  match ordLogParse s.sc with
  | .error e => (.error e, s)
  | .ok (p, sc) =>
    let is_add := is_available p.actions_mask ActionFlag.ADD
    let is_buy := is_available p.actions_mask ActionFlag.BUY
    let is_sell := is_available p.actions_mask ActionFlag.SELL
    let entry : OrdLogEntry :=
      { actions_mask := p.actions_mask, exchange_timestamp := p.exchange_timestamp,
        exchange_order_id := p.exchange_order_id,
        order_price := sc.last_order_price, amount := sc.last_amount,
        amount_rest := p.amount_rest, deal_id := p.deal_id,
        deal_price := p.deal_price, oi_after_deal := p.oi_after_deal }
    let flow := is_available p.actions_mask ActionFlag.FLOW_START
    let quotesRef := if flow then s.nextRef else s.quotesRef
    let store := if flow then storeSet s.store s.nextRef [] else s.store
    let nextRef := if flow then s.nextRef + 1 else s.nextRef
    if (is_buy ^^ is_sell) && !(is_available p.actions_mask ActionFlag.NON_SYSTEM)
        && !(is_available p.actions_mask ActionFlag.NON_ZERO_REPL_ACT) then
      let quantity0 := dictGet (store quotesRef) sc.last_order_price 0
      let quantity := if (if is_add then is_sell else is_buy)
        then quantity0 + sc.last_amount else quantity0 - sc.last_amount
      let quotes1 := if quantity = 0 then dictPop (store quotesRef) sc.last_order_price
        else dictSet (store quotesRef) sc.last_order_price quantity
      let store := storeSet store quotesRef quotes1
      let eot := is_available p.actions_mask ActionFlag.END_OF_TRANSACTION
      let externalQuotesRef := if eot then nextRef else s.externalQuotesRef
      let store := if eot then storeSet store nextRef quotes1 else store
      let nextRef := if eot then nextRef + 1 else nextRef
      let aux : Option AuxInfoEntry := if eot then
          some { timestamp := p.exchange_timestamp, price := sc.last_deal_price,
                 ask_total := (askBidTotals quotes1).1,
                 bid_total := (askBidTotals quotes1).2,
                 oi := sc.last_oi_after_deal, hi_limit := 0, low_limit := 0,
                 deposit := 0, rate := 0, message := [] }
        else none
      let gate := dealGate s.last_pushed_deal_id sc.last_amount p is_sell
      (.ok (entry, aux, externalQuotesRef, gate.2),
       { sc := sc, last_pushed_deal_id := gate.1, quotesRef := quotesRef,
         externalQuotesRef := externalQuotesRef,
         quotesDictRef := s.quotesDictRef, store := store, nextRef := nextRef })
    else
      (.ok (entry, none, s.externalQuotesRef, none),
       { sc := sc, last_pushed_deal_id := s.last_pushed_deal_id, quotesRef := quotesRef,
         externalQuotesRef := s.externalQuotesRef,
         quotesDictRef := s.quotesDictRef, store := store, nextRef := nextRef })

/-- Source `read_quotes_data` in the reference model: the loop mutates the
dict behind `quotesDictRef` (partial mutations survive an error), and on
success `dict(self.quotes_dict)` allocates a fresh reference holding a copy,
which is what the call returns. -/
def read_quotes_data_heap (s : HState) : Except PyError Nat × HState :=
  match read_leb128 s.sc.stream with
  | .error e => (.error e, s)
  | .ok (count, st) =>
    match quotesLoop count.toNat s.sc.quotes_last_price (s.store s.quotesDictRef) st with
    | (some e, lastPrice, d, st') =>
      let sc' := { s.sc with stream := st', quotes_last_price := lastPrice }
      (.error e, { s with sc := sc', store := storeSet s.store s.quotesDictRef d })
    | (none, lastPrice, d, st') =>
      let sc' := { s.sc with stream := st', quotes_last_price := lastPrice }
      let store' := storeSet (storeSet s.store s.quotesDictRef d) s.nextRef d
      (.ok s.nextRef, { s with sc := sc', store := store', nextRef := s.nextRef + 1 })

/-- The two decode calls whose interleavings the snapshot-immutability claim
quantifies over. -/
inductive CallKind
  | ordlog
  | quotes

/-- State effect of one decode call (errors included: exceptions do not roll
back mutations). -/
def callStep : CallKind → HState → HState
  | .ordlog, s => (read_ord_log_data_heap s).2
  | .quotes, s => (read_quotes_data_heap s).2

/-- State after an arbitrary sequence of subsequent decode calls. -/
def runCalls (ks : List CallKind) (s : HState) : HState :=
  ks.foldl (fun s k => callStep k s) s

/-- Well-formedness of the reference state: the three dict attributes are
live, distinct objects. -/
abbrev HWF (s : HState) : Prop :=
  s.quotesRef < s.nextRef ∧ s.externalQuotesRef < s.nextRef ∧
  s.quotesDictRef < s.nextRef ∧ s.quotesRef ≠ s.externalQuotesRef ∧
  s.quotesRef ≠ s.quotesDictRef ∧ s.externalQuotesRef ≠ s.quotesDictRef

/-- A reference that no future decode call can mutate: allocated, and not
aliased to either internally-mutated dict attribute. -/
abbrev UntouchedRef (r : Nat) (s : HState) : Prop :=
  r ≠ s.quotesRef ∧ r ≠ s.quotesDictRef ∧ r < s.nextRef

/-! ## Concrete scenario inputs -/

/-- Scenario S1: decompressed bytes of the minimal header (version 1, empty
application and comment strings, created_at ticks 0, zero streams). -/
def s1Bytes : List Nat := signature ++ [1] ++ [0] ++ [0] ++ List.replicate 8 0 ++ [0]

/-- A well-formed header with non-empty application "a" and comment "b",
created_at ticks 0, one stream. -/
def goodBytes : List Nat :=
  signature ++ [1] ++ [1, 97] ++ [1, 98] ++ List.replicate 8 0 ++ [1]

/-- Scenario S4, frame 1 record payload: availability mask 0xFF, actions
ADD|BUY|END_OF_TRANSACTION (0x0414 little-endian), growing datetime delta 0,
growing order id delta 1, relative price +100 (leb128 `E4 00`), amount 5.
The FILL-guarded fields are not present because FILL is not set. -/
def s4Frame1 : List Nat := [0xFF, 0x14, 0x04, 0x00, 0x01, 0xE4, 0x00, 0x05]

/-- Scenario S4, frame 2 record payload: availability mask 0 (all last
values reused), actions CANCELED|BUY|END_OF_TRANSACTION (0x2410
little-endian). -/
def s4Frame2 : List Nat := [0x00, 0x10, 0x24]

/-- Scenario S4 one-stream byte stream after the file header: each record
preceded by a frame header (growing timestamp delta 0; no stream-index byte
since streams_count = 1). -/
def s4Stream : List Nat := [0x00] ++ s4Frame1 ++ [0x00] ++ s4Frame2

/-- Scenario S4 run: frame header + ord-log record, twice, projecting each
record's returned `external_quotes` snapshot and the (ask_total, bid_total)
of its aux-info entry. -/
def runS4 :
    Except PyError ((QDict × Option (Int × Int)) × (QDict × Option (Int × Int))) := do
  let s0 := initQshState s4Stream 1 0
  let (_, s1) ← read_frame_header s0
  let (r1, s2) ← read_ord_log_data s1
  let (_, s3) ← read_frame_header s2
  let (r2, _) ← read_ord_log_data s3
  .ok ((r1.external_quotes, r1.aux_info.map fun a => (a.ask_total, a.bid_total)),
       (r2.external_quotes, r2.aux_info.map fun a => (a.ask_total, a.bid_total)))

/-- Decoder state holding only the S4 frame-1 record payload. -/
def s4Frame1State : QshState := initQshState s4Frame1 1 0

/-- Scenario-S5-style stream: two FILL|BUY ord-log records (availability
mask DEAL_ID only) carrying the same deal id 7 (growing deltas 7 then 0). -/
def c2Stream : List Nat := [0x20, 0x18, 0x00, 0x07] ++ [0x20, 0x18, 0x00, 0x00]

/-- Decoder state for the duplicate-deal-id run. -/
def c2State : QshState := initQshState c2Stream 1 0

/-- Scenario S6 quotes-stream payload: count 2, (relative price +10,
volume 7), (relative price +5, volume 0). -/
def s6State : QshState := initQshState [0x02, 0x0A, 0x07, 0x05, 0x00] 1 0

/-- Quotes-stream payload exercising delete-then-reinstate at a present
price: count 3, (+10, volume 7), (+0, volume 0) deleting price 10,
(+0, volume 5) reinstating it. -/
def reinState : QshState := initQshState [0x03, 0x0A, 0x07, 0x00, 0x00, 0x00, 0x05] 1 0

/-- Reference-model initial state for the immutability witness: the S4
frame-1 ord-log record followed by a one-entry quotes-stream record. -/
def c4HState : HState := initHState (s4Frame1 ++ [0x01, 0x0A, 0x07])

/-- The quantity `read_ord_log_data`'s book update computes for a record's
price: the prior quantity at the entry's order price (defaulting to 0; the
prior book is empty after a FLOW_START) plus the entry's amount when
`(is_sell if is_add else is_buy)`, minus it otherwise. -/
def bookNewQuantity (entry : OrdLogEntry) (q : QDict) : Int :=
  let quotes0 := if is_available entry.actions_mask ActionFlag.FLOW_START then [] else q
  let quantity0 := dictGet quotes0 entry.order_price 0
  if (if is_available entry.actions_mask ActionFlag.ADD
        then is_available entry.actions_mask ActionFlag.SELL
        else is_available entry.actions_mask ActionFlag.BUY)
  then quantity0 + entry.amount else quantity0 - entry.amount

/-- A placeholder ord-log result (the error fallbacks below are never hit:
the concrete runs succeed). -/
def emptyOrdLogResult : OrdLogResult where
  entry := { actions_mask := 0, exchange_timestamp := 0, exchange_order_id := 0,
             order_price := 0, amount := 0, amount_rest := 0, deal_id := 0,
             deal_price := 0, oi_after_deal := 0 }
  aux_info := none
  external_quotes := []
  deal := none

/-- Result record of decoding the S4 frame-1 payload. -/
def c1R : OrdLogResult :=
  match read_ord_log_data s4Frame1State with
  | .ok (r, _) => r
  | .error _ => emptyOrdLogResult

/-- Decoder state after decoding the S4 frame-1 payload. -/
def c1S : QshState :=
  match read_ord_log_data s4Frame1State with
  | .ok (_, s') => s'
  | .error _ => s4Frame1State

/-- Results of the duplicate-deal-id two-record run. -/
def c2Rs : List OrdLogResult :=
  match read_ord_log_seq 2 c2State with
  | .ok (rs, _) => rs
  | .error _ => []

/-- Final state of the duplicate-deal-id two-record run. -/
def c2SEnd : QshState :=
  match read_ord_log_seq 2 c2State with
  | .ok (_, s) => s
  | .error _ => c2State

/-- Result tuple of the reference-model decode of the S4 frame-1 record
(the third component is the reference of the returned snapshot dict). -/
def c4Ret : OrdLogEntry × Option AuxInfoEntry × Nat × Option DealEntry :=
  match (read_ord_log_data_heap c4HState).1 with
  | .ok ret => ret
  | .error _ => (emptyOrdLogResult.entry, none, 0, none)

/-- Reference-model state after decoding the S4 frame-1 record. -/
def c4S1 : HState := (read_ord_log_data_heap c4HState).2

/-! ## Basic dict lemmas -/

theorem dictLookup_dictPop_self (d : QDict) (k : Int) :
    dictLookup (dictPop d k) k = none := by
  unfold dictPop dictLookup
  induction d with
  | nil => rfl
  | cons hd tl ih =>
    by_cases hc : hd.1 = k
    · simp [List.filter_cons, hc, bne, ih]
    · simp [List.filter_cons, hc, bne, ih]

theorem dictLookup_dictSet_self (d : QDict) (k v : Int) :
    dictLookup (dictSet d k v) k = some v := by
  unfold dictSet
  by_cases h : dictContains d k = true
  · simp only [h, if_true]
    unfold dictContains at h
    unfold dictLookup
    induction d with
    | nil => simp at h
    | cons hd tl ih =>
      by_cases hc : hd.1 = k
      · simp [hc]
      · simp only [List.any_cons, Bool.or_eq_true] at h
        rcases h with h | h
        · exact absurd (by simpa using h) hc
        · simpa [hc] using ih h
  · simp only [h]
    unfold dictContains at h
    unfold dictLookup
    induction d with
    | nil => simp
    | cons hd tl ih =>
      simp only [List.any_cons, Bool.or_eq_true] at h
      push_neg at h
      obtain ⟨hc, ht⟩ := h
      simpa [List.find?_cons, hc] using ih ht

/-! ## Reconstruction lemmas -/

theorem ordLogRecon_entry (p : OrdLogParsed) (sc : ScalarState) (lp : Int)
    (q e : QDict) :
    (ordLogRecon p sc lp q e).1.entry =
      { actions_mask := p.actions_mask, exchange_timestamp := p.exchange_timestamp,
        exchange_order_id := p.exchange_order_id,
        order_price := sc.last_order_price, amount := sc.last_amount,
        amount_rest := p.amount_rest, deal_id := p.deal_id,
        deal_price := p.deal_price, oi_after_deal := p.oi_after_deal } := by
  simp only [ordLogRecon]
  split <;> rfl

theorem ordLogRecon_book (p : OrdLogParsed) (sc : ScalarState) (lp : Int)
    (q e : QDict)
    (hbs : (is_available p.actions_mask ActionFlag.BUY
        ^^ is_available p.actions_mask ActionFlag.SELL) = true)
    (hns : is_available p.actions_mask ActionFlag.NON_SYSTEM = false)
    (hnz : is_available p.actions_mask ActionFlag.NON_ZERO_REPL_ACT = false) :
    dictLookup (ordLogRecon p sc lp q e).2.2.1 sc.last_order_price =
      (if bookNewQuantity (ordLogRecon p sc lp q e).1.entry q = 0 then none
       else some (bookNewQuantity (ordLogRecon p sc lp q e).1.entry q)) := by
  simp only [ordLogRecon, bookNewQuantity, hbs, hns, hnz, Bool.not_false,
    Bool.true_and, Bool.and_self, if_true]
  repeat' split
  all_goals first
    | exact dictLookup_dictPop_self _ _
    | exact dictLookup_dictSet_self _ _ _

theorem ordLogRecon_deal (p : OrdLogParsed) (sc : ScalarState) (lp : Int)
    (q e : QDict) :
    lp ≤ (ordLogRecon p sc lp q e).2.1
    ∧ ((ordLogRecon p sc lp q e).1.deal = none →
        (ordLogRecon p sc lp q e).2.1 = lp)
    ∧ ∀ d, (ordLogRecon p sc lp q e).1.deal = some d →
        lp < p.deal_id ∧ (ordLogRecon p sc lp q e).2.1 = p.deal_id
        ∧ d.type = (if is_available p.actions_mask ActionFlag.SELL
            then DealType.SELL else DealType.BUY)
        ∧ d.volume = sc.last_amount ∧ d.order_id = 0 ∧ d.id = p.deal_id := by
  simp only [ordLogRecon, dealGate]
  by_cases hguard : ((is_available p.actions_mask ActionFlag.BUY
      ^^ is_available p.actions_mask ActionFlag.SELL)
      && !(is_available p.actions_mask ActionFlag.NON_SYSTEM)
      && !(is_available p.actions_mask ActionFlag.NON_ZERO_REPL_ACT)) = true
  · simp only [hguard, if_true]
    by_cases hlt : lp < p.deal_id
    · simp only [if_pos hlt]
      refine ⟨le_of_lt hlt, by simp, ?_⟩
      intro d hd
      simp only [Option.some.injEq] at hd
      subst hd
      refine ⟨hlt, ?_, ?_, ?_, ?_, ?_⟩ <;> trivial
    · simp only [if_neg hlt]
      refine ⟨le_refl lp, ?_, ?_⟩
      · intros; trivial
      · simp
  · rw [Bool.not_eq_true] at hguard
    simp only [hguard, Bool.false_eq_true, if_false]
    refine ⟨le_refl lp, ?_, ?_⟩
    · intros; trivial
    · simp

/-- Facts about one `read_ord_log_data` step relevant for deal gating. -/
theorem ord_log_step_deal (s : QshState) (r : OrdLogResult) (s' : QshState)
    (h : read_ord_log_data s = .ok (r, s')) :
    s.last_pushed_deal_id ≤ s'.last_pushed_deal_id
    ∧ (r.deal = none → s'.last_pushed_deal_id = s.last_pushed_deal_id)
    ∧ ∀ d, r.deal = some d →
        s.last_pushed_deal_id < r.entry.deal_id
        ∧ s'.last_pushed_deal_id = r.entry.deal_id
        ∧ d.type = (if is_available r.entry.actions_mask ActionFlag.SELL
            then DealType.SELL else DealType.BUY)
        ∧ d.volume = s'.sc.last_amount ∧ d.order_id = 0
        ∧ d.id = r.entry.deal_id := by
  unfold read_ord_log_data at h
  cases hp : ordLogParse s.sc with
  | error e => rw [hp] at h; exact absurd h (by simp)
  | ok ps =>
    obtain ⟨p, sc1⟩ := ps
    rw [hp] at h
    simp only [Except.ok.injEq, Prod.mk.injEq] at h
    obtain ⟨hr, hs⟩ := h
    subst hr
    subst hs
    have hE := ordLogRecon_entry p sc1 s.last_pushed_deal_id s.quotes s.external_quotes
    have hD := ordLogRecon_deal p sc1 s.last_pushed_deal_id s.quotes s.external_quotes
    simp only [hE]
    exact ⟨hD.1, hD.2.1, hD.2.2⟩

/-- Monotonicity of the deal gate across a sequence of calls. -/
theorem ord_log_seq_mono (n : Nat) :
    ∀ (s : QshState) (rs : List OrdLogResult) (s'' : QshState),
      read_ord_log_seq n s = .ok (rs, s'') →
      s.last_pushed_deal_id ≤ s''.last_pushed_deal_id := by
  induction n with
  | zero =>
    intro s rs s'' h
    simp only [read_ord_log_seq, Except.ok.injEq, Prod.mk.injEq] at h
    rw [← h.2]
  | succ n ih =>
    intro s rs s'' h
    unfold read_ord_log_seq at h
    cases h1 : read_ord_log_data s with
    | error e => rw [h1] at h; exact absurd h (by simp)
    | ok pr =>
      obtain ⟨r, s'⟩ := pr
      rw [h1] at h
      dsimp only at h
      cases h2 : read_ord_log_seq n s' with
      | error e => rw [h2] at h; exact absurd h (by simp)
      | ok pr2 =>
        obtain ⟨rs', sEnd⟩ := pr2
        rw [h2] at h
        simp only [Except.ok.injEq, Prod.mk.injEq] at h
        obtain ⟨-, h4⟩ := h
        subst h4
        exact le_trans (ord_log_step_deal s r s' h1).1 (ih s' rs' sEnd h2)

/-- If every record of a run carries deal id `did` and the gate already
reached `did`, no deal is emitted in the whole run. -/
theorem ord_log_seq_no_new_deal (n : Nat) :
    ∀ (s : QshState) (did : Int) (rs : List OrdLogResult) (s'' : QshState),
      read_ord_log_seq n s = .ok (rs, s'') →
      (∀ r ∈ rs, r.entry.deal_id = did) →
      did ≤ s.last_pushed_deal_id →
      dealsEmitted rs = 0 := by
  induction n with
  | zero =>
    intro s did rs s'' h _ _
    simp only [read_ord_log_seq, Except.ok.injEq, Prod.mk.injEq] at h
    rw [← h.1]
    rfl
  | succ n ih =>
    intro s did rs s'' h hall hle
    unfold read_ord_log_seq at h
    cases h1 : read_ord_log_data s with
    | error e => rw [h1] at h; exact absurd h (by simp)
    | ok pr =>
      obtain ⟨r, s'⟩ := pr
      rw [h1] at h
      dsimp only at h
      cases h2 : read_ord_log_seq n s' with
      | error e => rw [h2] at h; exact absurd h (by simp)
      | ok pr2 =>
        obtain ⟨rs', sEnd⟩ := pr2
        rw [h2] at h
        simp only [Except.ok.injEq, Prod.mk.injEq] at h
        obtain ⟨h3, h4⟩ := h
        subst h4
        rw [← h3] at hall ⊢
        have hstep := ord_log_step_deal s r s' h1
        cases hdeal : r.deal with
        | some d =>
          have hfacts := hstep.2.2 d hdeal
          have hr : r.entry.deal_id = did := hall r (by simp)
          omega
        | none =>
          have hrs2 : ∀ x ∈ rs', x.entry.deal_id = did := by
            intro x hx; exact hall x (by simp [hx])
          have h5 : dealsEmitted rs' = 0 :=
            ih s' did rs' sEnd h2 hrs2 (by rw [hstep.2.1 hdeal]; exact hle)
          simp only [dealsEmitted, List.filter_cons, hdeal] at h5 ⊢
          simpa using h5

/-- Records all carrying one deal id emit at most one deal in total. -/
theorem ord_log_seq_at_most_one (n : Nat) :
    ∀ (s : QshState) (did : Int) (rs : List OrdLogResult) (s'' : QshState),
      read_ord_log_seq n s = .ok (rs, s'') →
      (∀ r ∈ rs, r.entry.deal_id = did) →
      dealsEmitted rs ≤ 1 := by
  induction n with
  | zero =>
    intro s did rs s'' h _
    simp only [read_ord_log_seq, Except.ok.injEq, Prod.mk.injEq] at h
    rw [← h.1]
    decide
  | succ n ih =>
    intro s did rs s'' h hall
    unfold read_ord_log_seq at h
    cases h1 : read_ord_log_data s with
    | error e => rw [h1] at h; exact absurd h (by simp)
    | ok pr =>
      obtain ⟨r, s'⟩ := pr
      rw [h1] at h
      dsimp only at h
      cases h2 : read_ord_log_seq n s' with
      | error e => rw [h2] at h; exact absurd h (by simp)
      | ok pr2 =>
        obtain ⟨rs', sEnd⟩ := pr2
        rw [h2] at h
        simp only [Except.ok.injEq, Prod.mk.injEq] at h
        obtain ⟨h3, h4⟩ := h
        subst h4
        rw [← h3] at hall ⊢
        have hstep := ord_log_step_deal s r s' h1
        have hrs2 : ∀ x ∈ rs', x.entry.deal_id = did := by
          intro x hx; exact hall x (by simp [hx])
        cases hdeal : r.deal with
        | some d =>
          have hfacts := hstep.2.2 d hdeal
          have hr : r.entry.deal_id = did := hall r (by simp)
          have h5 : dealsEmitted rs' = 0 :=
            ord_log_seq_no_new_deal n s' did rs' sEnd h2 hrs2 (by omega)
          simp only [dealsEmitted, List.filter_cons, hdeal] at h5 ⊢
          simp [h5]
        | none =>
          have h5 : dealsEmitted rs' ≤ 1 := ih s' did rs' sEnd h2 hrs2
          simp only [dealsEmitted, List.filter_cons, hdeal] at h5 ⊢
          simpa using h5

/-- C5: `read_growing(last)` decodes a ULEB128 value `d` and returns
`last + d` when `d ≠ 0x0FFFFFFF`; when `d = 0x0FFFFFFF` (268435455) it
instead reads a signed LEB128 `d2` and returns `last + d2`; in particular
with `last = 1000`, bytes `FF FF FF 7F` followed by `7F` yield 999. -/
theorem claim_c5_growing :
    (∀ (last : Int) (s rest : List Nat) (d : Nat),
        read_uleb128 s = .ok (d, rest) → d ≠ 268435455 →
        read_growing last s = .ok (last + (d : Int), rest))
    ∧ (∀ (last : Int) (s rest rest2 : List Nat) (d2 : Int),
        read_uleb128 s = .ok (268435455, rest) →
        read_leb128 rest = .ok (d2, rest2) →
        read_growing last s = .ok (last + d2, rest2))
    ∧ read_growing 1000 [0xFF, 0xFF, 0xFF, 0x7F, 0x7F] = .ok (999, []) := by
  refine ⟨?_, ?_, by decide⟩
  · intro last s rest d h hne
    simp [read_growing, h, hne]
  · intro last s rest rest2 d2 h h2
    simp [read_growing, h, h2]

/-- C5 witness: the non-sentinel branch at a concrete input
(`read_uleb128 [5] = .ok (5, [])`, 5 is not the sentinel, so
`read_growing 100 [5] = .ok (105, [])`). -/
theorem claim_c5_growing_witness :
    read_uleb128 [5] = .ok (5, []) ∧ (5 : Nat) ≠ 268435455
    ∧ read_growing 100 [5] = .ok (105, []) :=
  ⟨by decide, by decide, claim_c5_growing.1 100 [5] [] 5 (by decide) (by decide)⟩

/-- C6: `read_leb128` decodes signed LEB128 with 0x40-bit sign extension:
`00 → 0` (signed and unsigned), `7F → -1`, `FF 00 → 127`, `FF 7F → -1`, and
`read_uleb128` decodes `80 01 → 128`. -/
theorem claim_c6_leb128 :
    read_leb128 [0x00] = .ok (0, []) ∧ read_uleb128 [0x00] = .ok (0, [])
    ∧ read_leb128 [0x7F] = .ok (-1, [])
    ∧ read_leb128 [0xFF, 0x00] = .ok (127, [])
    ∧ read_leb128 [0xFF, 0x7F] = .ok (-1, [])
    ∧ read_uleb128 [0x80, 0x01] = .ok (128, []) := by
  decide

/-- C7 (code bug): a primitive read that gets some but fewer bytes than
requested does not fail with End-Of-Stream: `read_uint16` on a 1-byte
stream returns the short buffer from `read` (the `result == ''` emptiness
test does not fire) and then fails inside `struct.unpack` with
`struct.error`.  Moreover `open` on the S1 minimal-header bytes fails with
`EOFError` at the empty application string, because `read(0)` yields an
empty buffer which does trigger the End-Of-Stream check, so the S1 scenario
never reaches `read_frame_header`. -/
theorem claim_c7_eos_eval :
    read_uint16 [42] = .error .structError
    ∧ qshOpen (DiskFile.gzipped s1Bytes []) = .error .eof := by
  constructor
  · decide
  · decide

/-- C8 counterexample: on the S6 input the second record carries volume 0
at the absent price 15, so `read_quotes_data` fails with `KeyError` instead
of returning the snapshot `{10: 7}`. -/
theorem claim_c8_counterexample :
    read_quotes_data s6State = .error .keyError := by
  decide

/-- C8 (amended): a (price, volume 0) pair removes that price from the
running dict when the price is present, and a later non-zero volume at the
same price reinstates it (concretely: records (+10,7), (+0,0), (+0,5)
return the snapshot {10: 5}); on the S6 input the volume-0 record refers to
the absent price 15, so the call fails with `KeyError` rather than
returning a snapshot. -/
theorem claim_c8_amended :
    (read_quotes_data reinState).toOption.map Prod.fst = some [(10, 5)]
    ∧ read_quotes_data s6State = .error .keyError := by
  constructor
  · decide
  · decide

/-- C9 (code bug): `open` on a well-formed but uncompressed (raw) QSH file
does not fall back to raw reading: the gzip read itself raises (the file is
not a gzip archive) and the exception propagates, so no raw file ever opens.
The fallback logic only runs when gzip decompression succeeds with a
non-matching signature: a gzip archive holding a valid QSH payload opens
fine, and when both the decompressed and the raw bytes mismatch the
signature, `open` fails with `TypeError` (Unsupported-Format). -/
theorem claim_c9_open_eval :
    qshOpen (DiskFile.raw s1Bytes) = .error .badGzipFile
    ∧ (qshOpen (DiskFile.gzipped goodBytes [])).toOption.map Prod.fst =
        some { version := 1, application := [97], comment := [98],
               created_at := 0, streams_count := 1 }
    ∧ qshOpen (DiskFile.gzipped [5, 6, 7] [9]) = .error .typeError := by
  refine ⟨by decide, by decide, by decide⟩

/-- C10 (code bug): `deals_last_volume` is the one deals-stream last-value
field with no initializer in the source, so the first `read_deals_data`
whose availability mask has the VOLUME bit (64) clear fails with
`AttributeError` instead of returning a `DealEntry` with volume 0; with the
VOLUME bit set the call succeeds. -/
theorem claim_c10_deals_eval :
    read_deals_data (initQshState [0x00] 1 0) = .error .attributeError
    ∧ (read_deals_data (initQshState [0x40, 0x05] 1 0)).toOption.map
        (fun p => p.1.volume) = some 5 := by
  constructor
  · decide
  · decide

/-- C1: for every ord-log record decoded by `read_ord_log_data` with exactly
one of BUY/SELL set and neither NON_SYSTEM nor NON_ZERO_REPL_ACT set, the
book quantity at the record's order price changes by +amount when
`(is_sell if is_add else is_buy)` holds and by -amount otherwise (the prior
book being the internal quotes map, empty after a FLOW_START), and the
price is removed from the map when the resulting quantity is 0; on the S4
one-stream ORD_LOG run, frame 1 yields external_quotes = {100: -5} with
ask_total 0 and bid_total 5, and frame 2 yields external_quotes = {} with
both totals 0. -/
theorem claim_c1_book_update :
    (∀ (s : QshState) (r : OrdLogResult) (s' : QshState),
        read_ord_log_data s = .ok (r, s') →
        (is_available r.entry.actions_mask ActionFlag.BUY
          ^^ is_available r.entry.actions_mask ActionFlag.SELL) = true →
        is_available r.entry.actions_mask ActionFlag.NON_SYSTEM = false →
        is_available r.entry.actions_mask ActionFlag.NON_ZERO_REPL_ACT = false →
        dictLookup s'.quotes r.entry.order_price =
          (if bookNewQuantity r.entry s.quotes = 0 then none
           else some (bookNewQuantity r.entry s.quotes)))
    ∧ runS4 = .ok (([(100, -5)], some (0, 5)), ([], some (0, 0))) := by
  constructor
  · intro s r s' h hbs hns hnz
    unfold read_ord_log_data at h
    cases hp : ordLogParse s.sc with
    | error e => rw [hp] at h; exact absurd h (by simp)
    | ok ps =>
      obtain ⟨p, sc1⟩ := ps
      rw [hp] at h
      simp only [Except.ok.injEq, Prod.mk.injEq] at h
      obtain ⟨hr, hs⟩ := h
      subst hr
      subst hs
      have hE := ordLogRecon_entry p sc1 s.last_pushed_deal_id s.quotes
        s.external_quotes
      simp only [hE] at hbs hns hnz ⊢
      have hb := ordLogRecon_book p sc1 s.last_pushed_deal_id s.quotes
        s.external_quotes hbs hns hnz
      rw [hE] at hb
      exact hb
  · decide

/-- C1 witness: the general book-update law applied to the concrete S4
frame-1 record, whose buy-side add at price 100 stores quantity -5. -/
theorem claim_c1_book_update_witness :
    dictLookup c1S.quotes c1R.entry.order_price =
      (if bookNewQuantity c1R.entry s4Frame1State.quotes = 0 then none
       else some (bookNewQuantity c1R.entry s4Frame1State.quotes))
    ∧ dictLookup c1S.quotes 100 = some (-5) := by
  constructor
  · exact claim_c1_book_update.1 s4Frame1State c1R c1S rfl (by decide)
      (by decide) (by decide)
  · decide

/-- C2: across any sequence of `read_ord_log_data` calls,
`last_pushed_deal_id` is monotonically non-decreasing and gates deal
emission: a DealEntry is emitted only when the record's deal id is strictly
greater than `last_pushed_deal_id`, which is then advanced to it, so any
number of records carrying one deal id emit at most one DealEntry in total;
an emitted entry has type SELL if is_sell else BUY, volume = last_amount
and order_id = 0. -/
theorem claim_c2_deal_gating :
    (∀ (s : QshState) (r : OrdLogResult) (s' : QshState),
        read_ord_log_data s = .ok (r, s') →
        s.last_pushed_deal_id ≤ s'.last_pushed_deal_id
        ∧ ∀ d, r.deal = some d →
            s.last_pushed_deal_id < r.entry.deal_id
            ∧ s'.last_pushed_deal_id = r.entry.deal_id
            ∧ d.type = (if is_available r.entry.actions_mask ActionFlag.SELL
                then DealType.SELL else DealType.BUY)
            ∧ d.volume = s'.sc.last_amount ∧ d.order_id = 0
            ∧ d.id = r.entry.deal_id)
    ∧ (∀ (n : Nat) (s : QshState) (rs : List OrdLogResult) (s'' : QshState),
        read_ord_log_seq n s = .ok (rs, s'') →
        s.last_pushed_deal_id ≤ s''.last_pushed_deal_id)
    ∧ (∀ (n : Nat) (s : QshState) (did : Int) (rs : List OrdLogResult)
        (s'' : QshState),
        read_ord_log_seq n s = .ok (rs, s'') →
        (∀ r ∈ rs, r.entry.deal_id = did) →
        dealsEmitted rs ≤ 1) :=
  ⟨fun s r s' h => ⟨(ord_log_step_deal s r s' h).1, (ord_log_step_deal s r s' h).2.2⟩,
   fun n s rs s'' h => ord_log_seq_mono n s rs s'' h,
   fun n s did rs s'' h hall => ord_log_seq_at_most_one n s did rs s'' h hall⟩

/-- C2 witness: the duplicate-deal-id run (two FILL records with deal id 7)
emits at most one deal, and its gate is monotone. -/
theorem claim_c2_deal_gating_witness :
    dealsEmitted c2Rs ≤ 1
    ∧ c2State.last_pushed_deal_id ≤ c2SEnd.last_pushed_deal_id :=
  ⟨claim_c2_deal_gating.2.2 2 c2State 7 c2Rs c2SEnd rfl (by decide),
   claim_c2_deal_gating.2.1 2 c2State c2Rs c2SEnd rfl⟩

/-- C3: ORDER_ID handling in `read_ord_log_data` is three-way: with the
availability bit clear, `exchange_order_id = last_order_id`, nothing is
read and the state is unchanged; with the bit set and ADD set,
`last_order_id` is advanced by a growing delta and the new value exported;
with the bit set and ADD clear, the exported id is `last_order_id` plus a
signed relative (leb128) delta while `last_order_id` itself stays
unchanged, so later growing/relative reads still base off the earlier
`last_order_id`. -/
theorem claim_c3_order_id :
    (∀ (m : Nat) (a : Bool) (sc : ScalarState),
        is_available m OrdLogDataFlag.ORDER_ID = false →
        ordLogOrderId m a sc = .ok (sc.last_order_id, sc))
    ∧ (∀ (m : Nat) (sc sc' : ScalarState) (eid : Int),
        is_available m OrdLogDataFlag.ORDER_ID = true →
        ordLogOrderId m true sc = .ok (eid, sc') →
        read_growing sc.last_order_id sc.stream = .ok (eid, sc'.stream)
        ∧ sc'.last_order_id = eid
        ∧ sc' = { sc with last_order_id := eid, stream := sc'.stream })
    ∧ (∀ (m : Nat) (sc sc' : ScalarState) (eid : Int),
        is_available m OrdLogDataFlag.ORDER_ID = true →
        ordLogOrderId m false sc = .ok (eid, sc') →
        ∃ offset rest, read_leb128 sc.stream = .ok (offset, rest)
          ∧ eid = sc.last_order_id + offset
          ∧ sc' = { sc with stream := rest }) := by
  refine ⟨?_, ?_, ?_⟩
  · intro m a sc hm
    unfold ordLogOrderId
    simp [hm]
  · intro m sc sc' eid hm h
    unfold ordLogOrderId at h
    simp only [hm, Bool.not_true, Bool.false_eq_true, if_false, if_true] at h
    cases hg : read_growing sc.last_order_id sc.stream with
    | error e => rw [hg] at h; exact absurd h (by simp)
    | ok pr =>
      obtain ⟨v, st⟩ := pr
      rw [hg] at h
      simp only [Except.ok.injEq, Prod.mk.injEq] at h
      obtain ⟨hv, hs⟩ := h
      subst hv
      subst hs
      exact ⟨rfl, rfl, rfl⟩
  · intro m sc sc' eid hm h
    unfold ordLogOrderId read_relative at h
    simp only [hm, Bool.not_true, Bool.false_eq_true, if_false] at h
    cases hl : read_leb128 sc.stream with
    | error e => rw [hl] at h; exact absurd h (by simp)
    | ok pr =>
      obtain ⟨off, rest⟩ := pr
      rw [hl] at h
      simp only [Except.ok.injEq, Prod.mk.injEq] at h
      obtain ⟨hv, hs⟩ := h
      subst hs
      exact ⟨off, rest, rfl, hv.symm, rfl⟩

/-- C3 witness: the three branches at concrete inputs: absent bit (mask 0)
leaves the state alone; present bit with ADD reads a growing delta
(`read_growing 0 [07] = .ok (7, [])`); present bit without ADD reads a
signed relative delta. -/
theorem claim_c3_order_id_witness :
    ordLogOrderId 0 true (initScalar [1, 2, 3] 1 0) =
      .ok (0, initScalar [1, 2, 3] 1 0)
    ∧ read_growing 0 [0x07] = .ok (7, [])
    ∧ ∃ offset rest, read_leb128 [0x7F] = .ok (offset, rest) := by
  refine ⟨claim_c3_order_id.1 0 true (initScalar [1, 2, 3] 1 0) (by decide), ?_, ?_⟩
  · exact (claim_c3_order_id.2.1 2 (initScalar [0x07] 1 0)
      { initScalar [0x07] 1 0 with last_order_id := 7, stream := [] } 7
      (by decide) (by decide)).1
  · obtain ⟨off, rest, h1, -, -⟩ := claim_c3_order_id.2.2 2 (initScalar [0x7F] 1 0)
      { initScalar [0x7F] 1 0 with stream := [] } (-1) (by decide) (by decide)
    exact ⟨off, rest, h1⟩

/-- Store updates at other references are invisible. -/
theorem storeSet_ne (f : Nat → QDict) (rr : Nat) (d : QDict) (x : Nat)
    (h : x ≠ rr) : storeSet f rr d x = f x := by
  unfold storeSet
  simp [h]

/-- One reference-model ord-log call neither mutates nor invalidates an
untouched reference. -/
theorem ordlog_heap_untouched (s : HState) (r : Nat) (h : UntouchedRef r s) :
    (read_ord_log_data_heap s).2.store r = s.store r
    ∧ UntouchedRef r (read_ord_log_data_heap s).2 := by
  obtain ⟨h1, h2, h3⟩ := h
  unfold read_ord_log_data_heap
  cases hp : ordLogParse s.sc with
  | error e => exact ⟨rfl, h1, h2, h3⟩
  | ok ps =>
    obtain ⟨p, sc⟩ := ps
    dsimp only
    by_cases hf : is_available p.actions_mask ActionFlag.FLOW_START = true
    · simp only [hf, if_true]
      split
      · by_cases he : is_available p.actions_mask ActionFlag.END_OF_TRANSACTION = true
        · simp only [he, if_true]
          refine ⟨?_, ?_, ?_, ?_⟩ <;> try dsimp only
          · rw [storeSet_ne _ _ _ _ (by omega), storeSet_ne _ _ _ _ (by omega),
              storeSet_ne _ _ _ _ (by omega)]
          · omega
          · omega
          · omega
        · rw [Bool.not_eq_true] at he
          simp only [he, Bool.false_eq_true, if_false]
          refine ⟨?_, ?_, ?_, ?_⟩ <;> try dsimp only
          · rw [storeSet_ne _ _ _ _ (by omega), storeSet_ne _ _ _ _ (by omega)]
          · omega
          · omega
          · omega
      · refine ⟨?_, ?_, ?_, ?_⟩ <;> try dsimp only
        · rw [storeSet_ne _ _ _ _ (by omega)]
        · omega
        · omega
        · omega
    · rw [Bool.not_eq_true] at hf
      simp only [hf, Bool.false_eq_true, if_false]
      split
      · by_cases he : is_available p.actions_mask ActionFlag.END_OF_TRANSACTION = true
        · simp only [he, if_true]
          refine ⟨?_, ?_, ?_, ?_⟩ <;> try dsimp only
          · rw [storeSet_ne _ _ _ _ (by omega), storeSet_ne _ _ _ _ h1]
          · omega
          · omega
          · omega
        · rw [Bool.not_eq_true] at he
          simp only [he, Bool.false_eq_true, if_false]
          refine ⟨?_, ?_, ?_, ?_⟩ <;> try dsimp only
          · exact storeSet_ne _ _ _ _ h1
          · omega
          · omega
          · omega
      · refine ⟨?_, ?_, ?_, ?_⟩ <;> (try dsimp only) <;> omega

/-- One reference-model quotes call neither mutates nor invalidates an
untouched reference. -/
theorem quotes_heap_untouched (s : HState) (r : Nat) (h : UntouchedRef r s) :
    (read_quotes_data_heap s).2.store r = s.store r
    ∧ UntouchedRef r (read_quotes_data_heap s).2 := by
  obtain ⟨h1, h2, h3⟩ := h
  unfold read_quotes_data_heap
  cases hc : read_leb128 s.sc.stream with
  | error e => exact ⟨rfl, h1, h2, h3⟩
  | ok pr =>
    obtain ⟨count, st⟩ := pr
    dsimp only
    cases hq : quotesLoop count.toNat s.sc.quotes_last_price
        (s.store s.quotesDictRef) st with
    | mk err rest =>
      obtain ⟨lp, d, st2⟩ := rest
      cases err with
      | some e =>
        refine ⟨?_, ?_, ?_, ?_⟩ <;> try dsimp only
        · exact storeSet_ne _ _ _ _ h2
        · omega
        · omega
        · omega
      | none =>
        refine ⟨?_, ?_, ?_, ?_⟩ <;> try dsimp only
        · rw [storeSet_ne _ _ _ _ (by omega), storeSet_ne _ _ _ _ h2]
        · omega
        · omega
        · omega

/-- Untouched references survive any sequence of subsequent calls with their
store contents intact. -/
theorem runCalls_untouched (ks : List CallKind) :
    ∀ (s : HState) (r : Nat), UntouchedRef r s →
      (runCalls ks s).store r = s.store r := by
  induction ks with
  | nil => intro s r _; rfl
  | cons k ks ih =>
    intro s r h
    have hstep : (callStep k s).store r = s.store r
        ∧ UntouchedRef r (callStep k s) := by
      cases k with
      | ordlog => exact ordlog_heap_untouched s r h
      | quotes => exact quotes_heap_untouched s r h
    calc (runCalls (k :: ks) s).store r
        = (runCalls ks (callStep k s)).store r := rfl
      _ = (callStep k s).store r := ih (callStep k s) r hstep.2
      _ = s.store r := hstep.1

/-- The snapshot reference returned by a successful reference-model ord-log
call is untouched in the post-call state. -/
theorem ordlog_heap_ret (s : HState)
    (ret : OrdLogEntry × Option AuxInfoEntry × Nat × Option DealEntry)
    (s₁ : HState) (hwf : HWF s)
    (h : read_ord_log_data_heap s = (.ok ret, s₁)) :
    UntouchedRef ret.2.2.1 s₁ := by
  obtain ⟨w1, w2, w3, w4, w5, w6⟩ := hwf
  unfold read_ord_log_data_heap at h
  cases hp : ordLogParse s.sc with
  | error e =>
    rw [hp] at h
    exact absurd (congrArg Prod.fst h) (by simp)
  | ok ps =>
    obtain ⟨p, sc⟩ := ps
    rw [hp] at h
    dsimp only at h
    by_cases hf : is_available p.actions_mask ActionFlag.FLOW_START = true
    · simp only [hf, if_true] at h
      split at h
      · by_cases he : is_available p.actions_mask ActionFlag.END_OF_TRANSACTION = true
        · simp only [he, if_true] at h
          simp only [Prod.mk.injEq, Except.ok.injEq] at h
          obtain ⟨hret, hs1⟩ := h
          subst hret
          subst hs1
          refine ⟨?_, ?_, ?_⟩ <;> (try dsimp only) <;> omega
        · rw [Bool.not_eq_true] at he
          simp only [he, Bool.false_eq_true, if_false] at h
          simp only [Prod.mk.injEq, Except.ok.injEq] at h
          obtain ⟨hret, hs1⟩ := h
          subst hret
          subst hs1
          refine ⟨?_, ?_, ?_⟩ <;> (try dsimp only) <;> omega
      · simp only [Prod.mk.injEq, Except.ok.injEq] at h
        obtain ⟨hret, hs1⟩ := h
        subst hret
        subst hs1
        refine ⟨?_, ?_, ?_⟩ <;> (try dsimp only) <;> omega
    · rw [Bool.not_eq_true] at hf
      simp only [hf, Bool.false_eq_true, if_false] at h
      split at h
      · by_cases he : is_available p.actions_mask ActionFlag.END_OF_TRANSACTION = true
        · simp only [he, if_true] at h
          simp only [Prod.mk.injEq, Except.ok.injEq] at h
          obtain ⟨hret, hs1⟩ := h
          subst hret
          subst hs1
          refine ⟨?_, ?_, ?_⟩ <;> (try dsimp only) <;> omega
        · rw [Bool.not_eq_true] at he
          simp only [he, Bool.false_eq_true, if_false] at h
          simp only [Prod.mk.injEq, Except.ok.injEq] at h
          obtain ⟨hret, hs1⟩ := h
          subst hret
          subst hs1
          refine ⟨?_, ?_, ?_⟩ <;> (try dsimp only) <;> omega
      · simp only [Prod.mk.injEq, Except.ok.injEq] at h
        obtain ⟨hret, hs1⟩ := h
        subst hret
        subst hs1
        refine ⟨?_, ?_, ?_⟩ <;> (try dsimp only) <;> omega

/-- The snapshot reference returned by a successful reference-model quotes
call is untouched in the post-call state. -/
theorem quotes_heap_ret (s : HState) (rref : Nat) (s₁ : HState) (hwf : HWF s)
    (h : read_quotes_data_heap s = (.ok rref, s₁)) :
    UntouchedRef rref s₁ := by
  obtain ⟨w1, w2, w3, w4, w5, w6⟩ := hwf
  unfold read_quotes_data_heap at h
  cases hc : read_leb128 s.sc.stream with
  | error e =>
    rw [hc] at h
    exact absurd (congrArg Prod.fst h) (by simp)
  | ok pr =>
    obtain ⟨count, st⟩ := pr
    rw [hc] at h
    dsimp only at h
    cases hq : quotesLoop count.toNat s.sc.quotes_last_price
        (s.store s.quotesDictRef) st with
    | mk err rest =>
      obtain ⟨lp, d, st2⟩ := rest
      rw [hq] at h
      cases err with
      | some e =>
        dsimp only at h
        exact absurd (congrArg Prod.fst h) (by simp)
      | none =>
        dsimp only at h
        simp only [Prod.mk.injEq, Except.ok.injEq] at h
        obtain ⟨hret, hs1⟩ := h
        subst hret
        subst hs1
        refine ⟨?_, ?_, ?_⟩ <;> (try dsimp only) <;> omega

/-- C4: no later decode call observably alters a previously returned
snapshot: in the reference model, the dict object returned by an earlier
`read_ord_log_data` call and the one returned by an earlier
`read_quotes_data` call have unchanged contents after any sequence of
subsequent `read_ord_log_data` / `read_quotes_data` calls that mutate the
internal quotes maps (new snapshots are fresh allocations; old ones are
never mutated in place). -/
theorem claim_c4_snapshot_immutable :
    (∀ (s : HState)
        (ret : OrdLogEntry × Option AuxInfoEntry × Nat × Option DealEntry)
        (s₁ : HState) (ks : List CallKind),
        HWF s → read_ord_log_data_heap s = (.ok ret, s₁) →
        (runCalls ks s₁).store ret.2.2.1 = s₁.store ret.2.2.1)
    ∧ (∀ (s : HState) (rref : Nat) (s₁ : HState) (ks : List CallKind),
        HWF s → read_quotes_data_heap s = (.ok rref, s₁) →
        (runCalls ks s₁).store rref = s₁.store rref) :=
  ⟨fun s ret s₁ ks hwf h =>
    runCalls_untouched ks s₁ ret.2.2.1 (ordlog_heap_ret s ret s₁ hwf h),
   fun s rref s₁ ks hwf h =>
    runCalls_untouched ks s₁ rref (quotes_heap_ret s rref s₁ hwf h)⟩

/-- C4 witness: the snapshot reference returned by decoding the S4 frame-1
record in the reference model still holds {100: -5} after a subsequent
quotes-stream call mutates the internal quotes dict. -/
theorem claim_c4_snapshot_immutable_witness :
    (runCalls [CallKind.quotes] c4S1).store c4Ret.2.2.1 =
      c4S1.store c4Ret.2.2.1
    ∧ c4S1.store c4Ret.2.2.1 = [(100, -5)] :=
  ⟨claim_c4_snapshot_immutable.1 c4HState c4Ret c4S1 [CallKind.quotes]
    (by decide) rfl,
   by decide⟩

end Qsh